import Mathlib

/-!
Verification development for the ngc-learn spiking-cell core:
the secant/LIF surrogate-gradient builder (surrogate_fx.py), the
winner-take-all spiking cell (WTASCell.py) and the resonate-and-fire
cell (RAFCell.py), embedded shallowly over real-valued tensors
represented as functions on finite index types.
-/

namespace NGC

noncomputable section

/-! ## Surrogate gradient builder: secant_lif_estimator (surrogate_fx.py) -/

/-- Forward spike function returned by secant_lif_estimator:
the Heaviside indicator of v exceeding thr (strict). -/
def spike_fx (v thr : ℝ) : ℝ :=
  if thr < v then 1 else 0

/-- Surrogate derivative returned by secant_lif_estimator
(surrogate_fx.py lines 96-127): a positive-current mask times
1/cosh(c2*j), scaled by c1*c2 when omit_scale is false. -/
def d_spike_fx (j thr c1 c2 : ℝ) (omit_scale : Bool) : ℝ :=
  let mask : ℝ := if 0 < j then 1 else 0
  let dj : ℝ := j * c2
  let cosh_j : ℝ := (Real.exp dj + Real.exp (-dj)) / 2
  let sech_j : ℝ := 1 / cosh_j
  let dv_dj : ℝ := if omit_scale = false then sech_j * (c1 * c2) else sech_j
  dv_dj * mask

/-- C1: the claim states the secant/LIF surrogate derivative computes
sech^2(c2*j) for j > 0 (optionally scaled by c1*c2), but the code computes
sech(c2*j) to the first power: at j = 1, thr = 0, c1 = 1, c2 = 1 with
scaling omitted the code returns 1/cosh(1), which is not (1/cosh(1))^2,
the value the claim (and the code's own docstring) requires. -/
theorem C1_secant_derivative_is_sech_not_sech_squared :
    d_spike_fx 1 0 1 1 true = 1 / Real.cosh 1 ∧
    d_spike_fx 1 0 1 1 true ≠ (1 / Real.cosh 1) ^ 2 := by
  have h1 : d_spike_fx 1 0 1 1 true = 1 / Real.cosh 1 := by
    simp only [d_spike_fx, Real.cosh_eq]
    norm_num
  have hc : 1 < Real.cosh 1 := by
    rw [Real.cosh_eq]
    have h2 : (1 : ℝ) + 1 < Real.exp 1 := Real.add_one_lt_exp one_ne_zero
    have h3 : 0 < Real.exp (-1) := Real.exp_pos _
    linarith
  have hc0 : 0 < Real.cosh 1 := Real.cosh_pos 1
  refine ⟨h1, ?_⟩
  rw [h1]
  intro h
  field_simp at h
  nlinarith [mul_lt_mul_of_pos_left hc hc0]

/-! ## Winner-take-all spiking cell (WTASCell.py)

Tensors of shape batch x units are embedded as functions
Fin b -> Fin n -> Real; element-wise jax operations become
pointwise operations on these functions. -/

/-- A batch x units tensor. -/
def Tensor (b n : ℕ) : Type := Fin b → Fin n → ℝ

/-- Time-of-last-spike update (WTASCell.py, update_times):
(1 - s) * tols + s * t, element-wise. -/
def update_times {b n : ℕ} (t : ℝ) (s tols : Tensor b n) : Tensor b n :=
  fun i k => (1 - s i k) * tols i k + s i k * t

/-- Modelled from the spec: the row-wise softmax normalization used by
run_cell. The function ngclearn.utils.model_utils.softmax is not under
src/; the spec says the masked voltage row is normalized into a
probability-like distribution via softmax, so each entry is
exp(v_ik) divided by the sum of exp over its row. -/
def softmax {b n : ℕ} (v : Tensor b n) : Tensor b n :=
  fun i k => Real.exp (v i k) / ∑ kk, Real.exp (v i kk)

/-- Result tuple of run_cell: (voltage, spikes, thresholds, refractory). -/
structure WTASOut (b n : ℕ) where
  v : Tensor b n
  s : Tensor b n
  thr : Tensor b n
  rfr : Tensor b n

/-- One step of WTAS dynamics (WTASCell.py, run_cell lines 27-63).
The parameters v and tau_m appear in the source signature; the body
overwrites v and never reads tau_m. -/
def run_cell {b n : ℕ} (dt : ℝ) (j v rfr v_thr : Tensor b n)
    (tau_m R_m thr_gain refract_T : ℝ) : WTASOut b n :=
  let mask : Tensor b n := fun i k => if refract_T ≤ rfr i k then 1 else 0
  let v2 : Tensor b n := fun i k => (j i k * R_m) * mask i k
  let vp : Tensor b n := softmax v2
  let s : Tensor b n := fun i k => if v_thr i k < vp i k then 1 else 0
  let q : ℝ := 1
  let dthr : Fin b → ℝ := fun i => (∑ kk, s i kk) - q
  let v_thr2 : Tensor b n := fun i k => max (v_thr i k + dthr i * thr_gain) 0.025
  let rfr2 : Tensor b n := fun i k => (rfr i k + dt) * (1 - s i k) + s i k * dt
  ⟨v2, s, v_thr2, rfr2⟩

/-- Result tuple of WTAS advance: (voltage, spikes, thresholds,
refractory, time-of-last-spike). -/
structure WTASAdv (b n : ℕ) where
  v : Tensor b n
  s : Tensor b n
  thr : Tensor b n
  rfr : Tensor b n
  tols : Tensor b n

/-- WTAS advance step (WTASCell.py, _advance_state lines 133-137):
run the cell dynamics, then update time-of-last-spike. The parameters
v and s are in the source signature; v is overwritten by run_cell and
s is recomputed. -/
def wtas_advance_state {b n : ℕ} (t dt tau_m R_m thr_gain refract_T : ℝ)
    (j v s thr rfr tols : Tensor b n) : WTASAdv b n :=
  let r := run_cell dt j v rfr thr tau_m R_m thr_gain refract_T
  ⟨r.v, r.s, r.thr, r.rfr, update_times t r.s tols⟩

/-- WTAS cell state: the six compartments of a WTASCell instance. -/
structure WTASState (b n : ℕ) where
  j : Tensor b n
  v : Tensor b n
  s : Tensor b n
  thr : Tensor b n
  rfr : Tensor b n
  tols : Tensor b n

/-- WTAS reset (WTASCell.py, _reset lines 147-155 and the reset resolver
lines 157-163): zero out current, voltage, spikes and time-of-last-spike,
set the refractory timer to refract_T; the threshold compartment is not
among the resolver's targets, so it is carried over unchanged. -/
def wtas_reset {b n : ℕ} (refract_T : ℝ) (st : WTASState b n) : WTASState b n :=
  { j := fun _ _ => 0
    v := fun _ _ => 0
    s := fun _ _ => 0
    thr := st.thr
    rfr := fun _ _ => refract_T
    tols := fun _ _ => 0 }

/-- C10: the WTAS advance step does not depend on the membrane time
constant tau_m: two advance calls on identical state and inputs that
differ only in tau_m produce identical voltage, spikes, threshold,
refractory and time-of-last-spike outputs. -/
theorem C10_wtas_advance_independent_of_tau_m {b n : ℕ}
    (t dt tau_m tau_m2 R_m thr_gain refract_T : ℝ)
    (j v s thr rfr tols : Tensor b n) :
    wtas_advance_state t dt tau_m R_m thr_gain refract_T j v s thr rfr tols =
      wtas_advance_state t dt tau_m2 R_m thr_gain refract_T j v s thr rfr tols := rfl

/-- C4: after any WTAS advance step the adaptive threshold of every unit
equals max(previous threshold + (row spike count - 1) * thr_gain, 0.025),
and in particular is at least 0.025. -/
theorem C4_wtas_threshold_update_and_floor {b n : ℕ}
    (t dt tau_m R_m thr_gain refract_T : ℝ)
    (j v s thr rfr tols : Tensor b n) (i : Fin b) (k : Fin n) :
    (wtas_advance_state t dt tau_m R_m thr_gain refract_T j v s thr rfr tols).thr i k =
      max (thr i k +
        ((∑ kk, (wtas_advance_state t dt tau_m R_m thr_gain refract_T
            j v s thr rfr tols).s i kk) - 1) * thr_gain) 0.025 ∧
    (0.025 : ℝ) ≤
      (wtas_advance_state t dt tau_m R_m thr_gain refract_T j v s thr rfr tols).thr i k :=
  ⟨rfl, le_max_right _ _⟩

/-- C2 counterexample: the claim states a unit with refractory_timer
strictly below refract_T emits no spike, but with one unit, refractory
timer 0 and refract_T = 1 the masked voltage row is all zero, its softmax
is 1, which exceeds the threshold 0.4, so the refractory unit spikes. -/
theorem C2_counterexample_refractory_unit_spikes :
    (0 : ℝ) < 1 ∧
    (run_cell (b := 1) (n := 1) 1 (fun _ _ => 5) (fun _ _ => 0) (fun _ _ => 0)
      (fun _ _ => 0.4) 1 1 0.002 1).s 0 0 = 1 := by
  refine ⟨one_pos, ?_⟩
  simp only [run_cell, softmax]
  norm_num [Fin.sum_univ_one]

/-- C2 amended: after a WTAS advance step, every unit whose refractory
timer is strictly less than refract_T has post-step voltage exactly 0
(its input drive is hard-masked); such a unit can nevertheless still
spike, since spikes are computed from the softmax of the masked row. -/
theorem C2_refractory_unit_voltage_zero {b n : ℕ}
    (t dt tau_m R_m thr_gain refract_T : ℝ)
    (j v s thr rfr tols : Tensor b n) (i : Fin b) (k : Fin n)
    (h : rfr i k < refract_T) :
    (wtas_advance_state t dt tau_m R_m thr_gain refract_T j v s thr rfr tols).v i k = 0 := by
  simp only [wtas_advance_state, run_cell]
  rw [if_neg (not_le.mpr h)]
  ring

/-- C2 witness: instantiation of the amended theorem at one unit with
refractory timer 0 and refract_T = 1. -/
theorem C2_refractory_unit_voltage_zero_witness :
    (wtas_advance_state (b := 1) (n := 1) 0 1 1 1 0.002 1 (fun _ _ => 5)
      (fun _ _ => 0) (fun _ _ => 0) (fun _ _ => 0.4) (fun _ _ => 0)
      (fun _ _ => 0)).v 0 0 = 0 :=
  C2_refractory_unit_voltage_zero 0 1 1 1 0.002 1 (fun _ _ => 5)
    (fun _ _ => 0) (fun _ _ => 0) (fun _ _ => 0.4) (fun _ _ => 0)
    (fun _ _ => 0) 0 0 (by norm_num)

/-- C9: WTAS reset zeroes the input current, voltage, spikes and
time-of-last-spike, sets the refractory timer to refract_T, and leaves
the adaptive threshold tensor exactly unchanged. -/
theorem C9_wtas_reset_frame {b n : ℕ} (refract_T : ℝ) (st : WTASState b n)
    (i : Fin b) (k : Fin n) :
    (wtas_reset refract_T st).j i k = 0 ∧
    (wtas_reset refract_T st).v i k = 0 ∧
    (wtas_reset refract_T st).s i k = 0 ∧
    (wtas_reset refract_T st).rfr i k = refract_T ∧
    (wtas_reset refract_T st).tols i k = 0 ∧
    (wtas_reset refract_T st).thr = st.thr :=
  ⟨rfl, rfl, rfl, rfl, rfl, rfl⟩

/-! ## Resonate-and-fire cell (RAFCell.py) -/

/-- Voltage dynamics core (RAFCell.py, _dfv_internal lines 26-31):
dv/dt = (omega*w + v*b) * (1/tau_m). The current j is in the source
signature but unused by this derivative. -/
def dfv_internal (j v w tau_m omega b : ℝ) : ℝ :=
  (omega * w + v * b) * (1 / tau_m)

/-- Voltage dynamics wrapper (RAFCell.py, _dfv lines 33-36); the
parameter tuple is (j, w, tau_m, omega, b) and v is the integrated
variable. -/
def dfv (t v : ℝ) (params : ℝ × ℝ × ℝ × ℝ × ℝ) : ℝ :=
  let (j, w, tau_m, omega, b) := params
  dfv_internal j v w tau_m omega b

/-- Angular-driver dynamics core (RAFCell.py, _dfw_internal lines 38-43):
dw/dt = (w*b - v*omega + j) * (1/tau_w). -/
def dfw_internal (j v w tau_w omega b : ℝ) : ℝ :=
  (w * b - v * omega + j) * (1 / tau_w)

/-- Angular-driver dynamics wrapper (RAFCell.py, _dfw lines 45-48); the
parameter tuple is (j, v, tau_w, omega, b) and w is the integrated
variable. -/
def dfw (t w : ℝ) (params : ℝ × ℝ × ℝ × ℝ × ℝ) : ℝ :=
  let (j, v, tau_w, omega, b) := params
  dfw_internal j v w tau_w omega b

/-- Spike emission (RAFCell.py, _emit_spike lines 50-53): indicator of
v strictly exceeding v_thr. -/
def emit_spike (v v_thr : ℝ) : ℝ :=
  if v_thr < v then 1 else 0

/-- Modelled from the spec: the fixed-step explicit Euler integrator
(ngclearn.utils.diffeq.ode_utils.step_euler is not under src/); given
time t, state y, derivative function f, step dt and parameters, it
returns (t + dt, y + dt * f(t, y, params)). -/
def step_euler {P : Type} (t y : ℝ) (f : ℝ → ℝ → P → ℝ) (dt : ℝ) (p : P) : ℝ × ℝ :=
  (t + dt, y + dt * f t y p)

/-- Modelled from the spec: the fixed-step midpoint/RK-2 integrator
(ngclearn.utils.diffeq.ode_utils.step_rk2 is not under src/); f is
evaluated at (t, y) to form a half-step state, evaluated again at the
half-step, and that second evaluation scaled by dt advances y. -/
def step_rk2 {P : Type} (t y : ℝ) (f : ℝ → ℝ → P → ℝ) (dt : ℝ) (p : P) : ℝ × ℝ :=
  let k1 := f t y p
  let ymid := y + (dt / 2) * k1
  (t + dt, y + dt * f (t + dt / 2) ymid p)

/-- Freshly integrated angular-driver candidate of one RAF advance step
(the local _w of RAFCell._advance_state, lines 156-163): the configured
stepper applied to w with parameter tuple (jscaled, v, tau_w, omega, b),
where v is the pre-step voltage. intgFlag = 1 selects RK-2; any other
flag uses Euler. -/
def raf_cand_w (intgFlag : ℕ) (dt tau_w omega b jscaled v w : ℝ) : ℝ :=
  if intgFlag = 1 then (step_rk2 0 w dfw dt (jscaled, v, tau_w, omega, b)).2
  else (step_euler 0 w dfw dt (jscaled, v, tau_w, omega, b)).2

/-- Freshly integrated voltage candidate of one RAF advance step
(the local _v of RAFCell._advance_state, lines 159-165): the configured
stepper applied to v with parameter tuple (jscaled, w, tau_m, omega, b),
where w is the pre-step angular driver. -/
def raf_cand_v (intgFlag : ℕ) (dt tau_m omega b jscaled w v : ℝ) : ℝ :=
  if intgFlag = 1 then (step_rk2 0 v dfv dt (jscaled, w, tau_m, omega, b)).2
  else (step_euler 0 v dfv dt (jscaled, w, tau_m, omega, b)).2

/-- Time-of-last-spike update as duplicated in RAFCell.py
(_update_times lines 8-24). -/
def raf_update_times {m n : ℕ} (t : ℝ) (s tols : Tensor m n) : Tensor m n :=
  fun i k => (1 - s i k) * tols i k + s i k * t

/-- Result tuple of RAF advance: (current, voltage, angular driver,
spikes, time-of-last-spike). -/
structure RAFAdv (m n : ℕ) where
  j : Tensor m n
  v : Tensor m n
  w : Tensor m n
  s : Tensor m n
  tols : Tensor m n

/-- RAF advance step (RAFCell.py, _advance_state lines 152-172): scale
the current by R_m, integrate the angular driver then the voltage with
the configured stepper (both from pre-step values), emit spikes where
the voltage candidate strictly exceeds thr, hyperpolarize spiking units
to v_reset/w_reset, and update time-of-last-spike. v_rest is in the
source signature but unused. -/
def raf_advance_state {m n : ℕ}
    (t dt tau_m R_m tau_w thr omega b v_rest v_reset w_reset : ℝ)
    (intgFlag : ℕ) (j v w tols : Tensor m n) : RAFAdv m n :=
  let jscaled : Tensor m n := fun i k => j i k * R_m
  let wC : Tensor m n := fun i k =>
    raf_cand_w intgFlag dt tau_w omega b (jscaled i k) (v i k) (w i k)
  let vC : Tensor m n := fun i k =>
    raf_cand_v intgFlag dt tau_m omega b (jscaled i k) (w i k) (v i k)
  let s : Tensor m n := fun i k => emit_spike (vC i k) thr
  let v2 : Tensor m n := fun i k => vC i k * (1 - s i k) + s i k * v_reset
  let w2 : Tensor m n := fun i k => wC i k * (1 - s i k) + s i k * w_reset
  ⟨j, v2, w2, s, raf_update_times t s tols⟩

/-- C3: in every RAF advance step, a unit that spikes has post-step
voltage exactly v_reset and post-step angular driver exactly w_reset,
and a unit that does not spike keeps exactly the freshly integrated
candidate values. -/
theorem C3_raf_hyperpolarization {m n : ℕ}
    (t dt tau_m R_m tau_w thr omega b v_rest v_reset w_reset : ℝ)
    (intgFlag : ℕ) (j v w tols : Tensor m n) (i : Fin m) (k : Fin n) :
    ((raf_advance_state t dt tau_m R_m tau_w thr omega b v_rest v_reset
        w_reset intgFlag j v w tols).s i k = 1 →
      (raf_advance_state t dt tau_m R_m tau_w thr omega b v_rest v_reset
        w_reset intgFlag j v w tols).v i k = v_reset ∧
      (raf_advance_state t dt tau_m R_m tau_w thr omega b v_rest v_reset
        w_reset intgFlag j v w tols).w i k = w_reset) ∧
    ((raf_advance_state t dt tau_m R_m tau_w thr omega b v_rest v_reset
        w_reset intgFlag j v w tols).s i k = 0 →
      (raf_advance_state t dt tau_m R_m tau_w thr omega b v_rest v_reset
        w_reset intgFlag j v w tols).v i k =
        raf_cand_v intgFlag dt tau_m omega b (j i k * R_m) (w i k) (v i k) ∧
      (raf_advance_state t dt tau_m R_m tau_w thr omega b v_rest v_reset
        w_reset intgFlag j v w tols).w i k =
        raf_cand_w intgFlag dt tau_w omega b (j i k * R_m) (v i k) (w i k)) := by
  constructor
  · intro hs
    simp only [raf_advance_state] at hs ⊢
    rw [hs]
    constructor <;> ring
  · intro hs
    simp only [raf_advance_state] at hs ⊢
    rw [hs]
    constructor <;> ring

/-- C3 witness: with one unit, Euler integration, omega = 0, dampening 0,
current 0, voltage 10 and threshold 5 the unit spikes and its post-step
voltage is the reset value -75 and its angular driver the reset value 0. -/
theorem C3_raf_hyperpolarization_witness :
    (raf_advance_state (m := 1) (n := 1) 0 1 1 1 1 5 0 0 (-72) (-75) 0 0
      (fun _ _ => 0) (fun _ _ => 10) (fun _ _ => 0) (fun _ _ => 0)).v 0 0 = -75 ∧
    (raf_advance_state (m := 1) (n := 1) 0 1 1 1 1 5 0 0 (-72) (-75) 0 0
      (fun _ _ => 0) (fun _ _ => 10) (fun _ _ => 0) (fun _ _ => 0)).w 0 0 = 0 :=
  (C3_raf_hyperpolarization 0 1 1 1 1 5 0 0 (-72) (-75) 0 0
    (fun _ _ => 0) (fun _ _ => 10) (fun _ _ => 0) (fun _ _ => 0) 0 0).1
    (by norm_num [raf_advance_state, emit_spike, raf_cand_v, step_euler,
      dfv, dfv_internal])

/-- The RAF advance step as the spec words it (section 4.2 steps 1-6):
scale the current by membrane resistance; integrate
dw/dt = (w*b - v*omega + jscaled)/tau_w with the configured stepper,
holding the voltage at its pre-step value; integrate
dv/dt = (omega*w + v*b)/tau_m with the configured stepper, holding the
angular driver at its pre-step value; emit spikes by strict threshold
comparison; hyperpolarize spiking units; update time-of-last-spike. -/
def raf_advance_spec_order {m n : ℕ}
    (t dt tau_m R_m tau_w thr omega b v_rest v_reset w_reset : ℝ)
    (intgFlag : ℕ) (j v w tols : Tensor m n) : RAFAdv m n :=
  let jscaled : Tensor m n := fun i k => j i k * R_m
  let wC : Tensor m n := fun i k =>
    if intgFlag = 1 then
      (step_rk2 0 (w i k)
        (fun _ y _ => (y * b - v i k * omega + jscaled i k) / tau_w) dt ()).2
    else
      (step_euler 0 (w i k)
        (fun _ y _ => (y * b - v i k * omega + jscaled i k) / tau_w) dt ()).2
  let vC : Tensor m n := fun i k =>
    if intgFlag = 1 then
      (step_rk2 0 (v i k)
        (fun _ y _ => (omega * w i k + y * b) / tau_m) dt ()).2
    else
      (step_euler 0 (v i k)
        (fun _ y _ => (omega * w i k + y * b) / tau_m) dt ()).2
  let s : Tensor m n := fun i k => if thr < vC i k then 1 else 0
  let v2 : Tensor m n := fun i k => vC i k * (1 - s i k) + s i k * v_reset
  let w2 : Tensor m n := fun i k => wC i k * (1 - s i k) + s i k * w_reset
  let tols2 : Tensor m n := fun i k => (1 - s i k) * tols i k + s i k * t
  ⟨j, v2, w2, s, tols2⟩

/-- The source angular-driver candidate agrees with the spec-order form
in which the pre-step voltage is fixed inside the derivative. -/
theorem raf_cand_w_spec_form (intgFlag : ℕ) (dt tau_w omega b jscaled vv ww : ℝ) :
    raf_cand_w intgFlag dt tau_w omega b jscaled vv ww =
      if intgFlag = 1 then
        (step_rk2 0 ww (fun _ y _ => (y * b - vv * omega + jscaled) / tau_w) dt ()).2
      else
        (step_euler 0 ww (fun _ y _ => (y * b - vv * omega + jscaled) / tau_w) dt ()).2 := by
  by_cases h : intgFlag = 1 <;>
    simp only [raf_cand_w, h, if_true, if_false, step_rk2, step_euler,
      dfw, dfw_internal] <;>
    ring

/-- The source voltage candidate agrees with the spec-order form in
which the pre-step angular driver is fixed inside the derivative. -/
theorem raf_cand_v_spec_form (intgFlag : ℕ) (dt tau_m omega b jscaled ww vv : ℝ) :
    raf_cand_v intgFlag dt tau_m omega b jscaled ww vv =
      if intgFlag = 1 then
        (step_rk2 0 vv (fun _ y _ => (omega * ww + y * b) / tau_m) dt ()).2
      else
        (step_euler 0 vv (fun _ y _ => (omega * ww + y * b) / tau_m) dt ()).2 := by
  by_cases h : intgFlag = 1 <;>
    simp only [raf_cand_v, h, if_true, if_false, step_rk2, step_euler,
      dfv, dfv_internal] <;>
    ring

/-- C5: for every integrator configuration (Euler and midpoint alike),
the RAF advance step equals the spec-order computation in which the
angular-driver integration reads the pre-step voltage and the voltage
integration reads the pre-step angular driver, in the fixed order
driver-then-voltage. -/
theorem C5_raf_semi_implicit_order {m n : ℕ}
    (t dt tau_m R_m tau_w thr omega b v_rest v_reset w_reset : ℝ)
    (intgFlag : ℕ) (j v w tols : Tensor m n) :
    raf_advance_state t dt tau_m R_m tau_w thr omega b v_rest v_reset
      w_reset intgFlag j v w tols =
    raf_advance_spec_order t dt tau_m R_m tau_w thr omega b v_rest v_reset
      w_reset intgFlag j v w tols := by
  simp only [raf_advance_state, raf_advance_spec_order, emit_spike,
    raf_cand_w_spec_form, raf_cand_v_spec_form]
  rfl

/-- Modelled from the spec: the integration-method selector
(ngclearn.utils.diffeq.ode_utils.get_integrator_code is not under src/).
Recognized values: "euler" maps to code 0, "midpoint" and "rk2" map to
code 1; any unrecognized value falls back to 0 (Euler), and selection
never fails. -/
def get_integrator_code (integration_type : String) : ℕ :=
  if integration_type = "euler" then 0
  else if integration_type = "midpoint" ∨ integration_type = "rk2" then 1
  else 0

/-- C6: construction with an unrecognized integration-method string does
not fail (the selector is total) and yields integrator code 0, so the
advance step is exactly the first-order Euler update (intgFlag 0). -/
theorem C6_unrecognized_integrator_falls_back_to_euler {m n : ℕ}
    (name : String) (t dt tau_m R_m tau_w thr omega b v_rest v_reset w_reset : ℝ)
    (j v w tols : Tensor m n)
    (h1 : name ≠ "euler") (h2 : name ≠ "midpoint") (h3 : name ≠ "rk2") :
    get_integrator_code name = 0 ∧
    raf_advance_state t dt tau_m R_m tau_w thr omega b v_rest v_reset
      w_reset (get_integrator_code name) j v w tols =
    raf_advance_state t dt tau_m R_m tau_w thr omega b v_rest v_reset
      w_reset 0 j v w tols := by
  have h0 : get_integrator_code name = 0 := by
    simp [get_integrator_code, h1, h2, h3]
  exact ⟨h0, by rw [h0]⟩

/-- C6 witness: the unrecognized selector string "heun" yields code 0 and
the Euler advance behavior at a concrete one-unit configuration. -/
theorem C6_unrecognized_integrator_witness :
    get_integrator_code "heun" = 0 ∧
    raf_advance_state (m := 1) (n := 1) 0 1 1 1 1 5 0 0 (-72) (-75) 0
      (get_integrator_code "heun") (fun _ _ => 0) (fun _ _ => 10)
      (fun _ _ => 0) (fun _ _ => 0) =
    raf_advance_state 0 1 1 1 1 5 0 0 (-72) (-75) 0 0
      (fun _ _ => 0) (fun _ _ => 10) (fun _ _ => 0) (fun _ _ => 0) :=
  C6_unrecognized_integrator_falls_back_to_euler "heun" 0 1 1 1 1 5 0 0
    (-72) (-75) 0 (fun _ _ => 0) (fun _ _ => 10) (fun _ _ => 0)
    (fun _ _ => 0) (by decide) (by decide) (by decide)

/-! ## Shape semantics of the tensor operations

Both cells combine the caller's input-current tensor with their own
state tensors through element-wise jax array operations, whose shape
behavior follows the numpy broadcasting rule: two 2-D shapes combine
dimension-wise, a dimension pair being accepted when equal or when one
of the two is 1, and the operation raises a shape error otherwise. -/

/-- A 2-D tensor shape: (rows, columns). -/
abbrev Shape : Type := ℕ × ℕ

/-- Broadcast one dimension pair: equal dimensions stay, a 1 stretches
to the other dimension, anything else is a shape error. -/
def bdim (a c : ℕ) : Option ℕ :=
  if a = c then some a else if a = 1 then some c else if c = 1 then some a else none

/-- Broadcast two 2-D shapes dimension-wise. -/
def broadcast2 (s1 s2 : Shape) : Option Shape :=
  match bdim s1.1 s2.1, bdim s1.2 s2.2 with
  | some x, some y => some (x, y)
  | _, _ => none

theorem bdim_self (a : ℕ) : bdim a a = some a := by
  simp [bdim]

theorem bdim_one_right (a : ℕ) : bdim a 1 = some a := by
  unfold bdim
  split_ifs <;> simp_all

theorem bdim_comm (a c : ℕ) : bdim a c = bdim c a := by
  unfold bdim
  split_ifs <;> simp_all

theorem bdim_absorb {a c x : ℕ} (h : bdim a c = some x) : bdim a x = some x := by
  unfold bdim at h ⊢
  split_ifs at h ⊢ <;> simp_all

theorem broadcast2_eq_some {s1 s2 s3 : Shape} :
    broadcast2 s1 s2 = some s3 ↔
      bdim s1.1 s2.1 = some s3.1 ∧ bdim s1.2 s2.2 = some s3.2 := by
  unfold broadcast2
  rcases s3 with ⟨x, y⟩
  cases h1 : bdim s1.1 s2.1 <;> cases h2 : bdim s1.2 s2.2 <;>
    simp_all [Prod.mk.injEq, eq_comm]

theorem broadcast2_self (s : Shape) : broadcast2 s s = some s := by
  rcases s with ⟨a, c⟩
  exact broadcast2_eq_some.mpr ⟨bdim_self a, bdim_self c⟩

theorem broadcast2_comm (s1 s2 : Shape) : broadcast2 s1 s2 = broadcast2 s2 s1 := by
  unfold broadcast2
  rw [bdim_comm s1.1 s2.1, bdim_comm s1.2 s2.2]

theorem broadcast2_absorb {s1 s2 s3 : Shape} (h : broadcast2 s1 s2 = some s3) :
    broadcast2 s1 s3 = some s3 := by
  rcases broadcast2_eq_some.mp h with ⟨h1, h2⟩
  exact broadcast2_eq_some.mpr ⟨bdim_absorb h1, bdim_absorb h2⟩

/-- Shape behavior of one WTAS run_cell step (WTASCell.py lines 54-62)
given the input-current shape js, the state shape ss (voltage and
refractory timer) and the threshold shape ts: masking multiplies j by
the refractory mask, softmax preserves shape, the spike comparison
combines the softmax output with the thresholds, the threshold update
adds the keepdims row-sum (rows of s, one column), and the refractory
update combines the timer with the spikes twice. Returns the shapes of
(voltage, spikes, thresholds, refractory) or none on a shape error. -/
def wtas_run_cell_shapes (js ss ts : Shape) : Option (Shape × Shape × Shape × Shape) :=
  (broadcast2 js ss).bind fun vsh =>
  (broadcast2 vsh ts).bind fun ssh =>
  (broadcast2 ts (ssh.1, 1)).bind fun tsh =>
  (broadcast2 ss ssh).bind fun r1 =>
  (broadcast2 r1 ssh).bind fun rsh =>
  some (vsh, ssh, tsh, rsh)

/-- Shape behavior of one RAF Euler advance step (RAFCell.py lines
152-172) given the input-current shape js and the shapes vs, ws of the
voltage and angular-driver state: the driver derivative combines w, v
and the scaled current, each Euler update combines the state with its
derivative, spiking compares against a scalar threshold, the
hyperpolarization combines candidates with the spikes, and the
time-of-last-spike update combines the spikes with tols (shape vs).
Returns the shapes of (voltage, angular driver) or none on a shape
error. -/
def raf_advance_shapes (js vs ws : Shape) : Option (Shape × Shape) :=
  (broadcast2 ws vs).bind fun d1 =>
  (broadcast2 d1 js).bind fun d2 =>
  (broadcast2 ws d2).bind fun wc =>
  (broadcast2 ws vs).bind fun e1 =>
  (broadcast2 vs e1).bind fun vc =>
  (broadcast2 wc vc).bind fun w2a =>
  (broadcast2 w2a vc).bind fun wc2 =>
  (broadcast2 vc vs).bind fun t1 =>
  (broadcast2 t1 vc).bind fun _ =>
  some (vc, wc2)

/-- C7 counterexample: the claim states every advance call whose
input-current shape differs from the state shape fails with a shape
error, but a (1,1) current against (1,2) state differs in shape and
both cells' advance steps complete by silent broadcasting. -/
theorem C7_counterexample_broadcast_completes :
    ((1, 1) : Shape) ≠ ((1, 2) : Shape) ∧
    (wtas_run_cell_shapes (1, 1) (1, 2) (1, 2)).isSome = true ∧
    (raf_advance_shapes (1, 1) (1, 2) (1, 2)).isSome = true := by
  refine ⟨?_, by decide, by decide⟩
  intro h
  exact absurd (congrArg Prod.snd h) (by decide)

/-- C7 amended: an advance call fails with a shape error exactly when
the input-current shape is not broadcast-compatible with the cell's
state shape; a differing but broadcast-compatible shape completes via
silent broadcasting. Holds for the WTAS and the RAF cell alike. -/
theorem C7_advance_shape_error_iff_incompatible (js : Shape) (b n : ℕ) :
    ((wtas_run_cell_shapes js (b, n) (b, n)).isSome ↔
      (broadcast2 js (b, n)).isSome) ∧
    ((raf_advance_shapes js (b, n) (b, n)).isSome ↔
      (broadcast2 js (b, n)).isSome) := by
  cases hv : broadcast2 js (b, n) with
  | none =>
    have hSj : broadcast2 (b, n) js = none := by
      rw [broadcast2_comm]; exact hv
    constructor
    · simp [wtas_run_cell_shapes, hv]
    · simp [raf_advance_shapes, broadcast2_self, hSj, hv]
  | some V =>
    have hSj : broadcast2 (b, n) js = some V := by
      rw [broadcast2_comm]; exact hv
    have hSV : broadcast2 (b, n) V = some V := broadcast2_absorb hSj
    have hVS : broadcast2 V (b, n) = some V := by
      rw [broadcast2_comm]; exact hSV
    have htb : bdim b V.1 = some V.1 := (broadcast2_eq_some.mp hSV).1
    have hts : broadcast2 (b, n) (V.1, 1) = some (V.1, n) :=
      broadcast2_eq_some.mpr ⟨htb, bdim_one_right n⟩
    constructor
    · simp [wtas_run_cell_shapes, hv, hVS, hSV, hts, broadcast2_self]
    · simp [raf_advance_shapes, broadcast2_self, hSj, hSV, hVS, hv]

/-! ## Construction-time state shapes -/

/-- Shapes of the five RAF compartments at construction
(RAFCell.py lines 139-150): all are zeros (or constant shifts) of
shape (batch_size, n_units), with batch_size supplied by the caller. -/
structure RAFInitShapes where
  j : Shape
  v : Shape
  w : Shape
  s : Shape
  tols : Shape

/-- RAF construction-time shapes (RAFCell.py, __init__ lines 139-150). -/
def raf_init_shapes (batch_size n_units : ℕ) : RAFInitShapes :=
  { j := (batch_size, n_units)
    v := (batch_size, n_units)
    w := (batch_size, n_units)
    s := (batch_size, n_units)
    tols := (batch_size, n_units) }

/-- Shapes of the six WTAS compartments at construction
(WTASCell.py lines 114-130). -/
structure WTASInitShapes where
  j : Shape
  v : Shape
  s : Shape
  thr : Shape
  rfr : Shape
  tols : Shape

/-- WTAS construction-time shapes (WTASCell.py, __init__ lines 114-130):
the constructor takes no batch-size argument and fixes
self.batch_size = 1 (line 115), so every compartment, including the
jittered threshold tensor (line 119), is allocated with shape
(1, n_units). -/
def wtas_init_shapes (n_units : ℕ) : WTASInitShapes :=
  { j := (1, n_units)
    v := (1, n_units)
    s := (1, n_units)
    thr := (1, n_units)
    rfr := (1, n_units)
    tols := (1, n_units) }

/-- C8 counterexample: the claim states all state tensors of the WTAS
cell as well are allocated with shape b x n_units for a caller-supplied
batch size b, but the WTAS constructor takes no batch-size argument and
always allocates (1, n_units): with n_units = 3 the voltage shape is
(1, 3), not the (2, 3) a caller asking for batch size 2 would require. -/
theorem C8_counterexample_wtas_batch_fixed :
    (wtas_init_shapes 3).v = ((1, 3) : Shape) ∧
    (wtas_init_shapes 3).v ≠ ((2, 3) : Shape) := by
  refine ⟨rfl, ?_⟩
  intro h
  exact absurd (congrArg Prod.fst h) (by decide)

/-- C8 amended: the RAF cell allocates every state tensor with shape
batch_size x n_units for the caller-supplied batch_size; the WTAS cell
has no caller-supplied batch size and allocates every state tensor,
including the adaptive threshold, with shape 1 x n_units. -/
theorem C8_construction_shapes (batch_size n_units m_units : ℕ) :
    (raf_init_shapes batch_size n_units).j = (batch_size, n_units) ∧
    (raf_init_shapes batch_size n_units).v = (batch_size, n_units) ∧
    (raf_init_shapes batch_size n_units).w = (batch_size, n_units) ∧
    (raf_init_shapes batch_size n_units).s = (batch_size, n_units) ∧
    (raf_init_shapes batch_size n_units).tols = (batch_size, n_units) ∧
    (wtas_init_shapes m_units).j = (1, m_units) ∧
    (wtas_init_shapes m_units).v = (1, m_units) ∧
    (wtas_init_shapes m_units).s = (1, m_units) ∧
    (wtas_init_shapes m_units).thr = (1, m_units) ∧
    (wtas_init_shapes m_units).rfr = (1, m_units) ∧
    (wtas_init_shapes m_units).tols = (1, m_units) :=
  ⟨rfl, rfl, rfl, rfl, rfl, rfl, rfl, rfl, rfl, rfl, rfl⟩

end

end NGC
